import Mathlib

/-!
# Verification of the Automated Report Generator metrics core

Shallow embedding of the metrics-derivation and rule-cascade subsystem of
the report generator (`data_processor.py`, `insights_generator.py`).

Modelling conventions:
* Python floats are modelled as exact rationals `ℚ` where the code only
  performs field arithmetic and comparisons, and as reals `ℝ` where the
  code uses transcendental operations (`**` with fractional exponent,
  `sqrt` inside the sample standard deviation).
* A float `NaN` produced by pandas (sample standard deviation of fewer
  than two observations) is modelled as `Option.none`.
* Calendar dates are modelled by their ordinal number (an integer); the
  code only ever compares them.
* Raising an exception is modelled by `Except.error`; the warning
  channel of the validator log is modelled as an explicit list of
  emitted warnings, so that the order of checks is observable.
-/

namespace ReportGen

/-- One observed week: a row of the cleaned dataset
(`Week_Start`, `Week_End`, `Total_Sales`, `Total_Orders`,
`Top_Product`, `Top_Customer`). -/
structure WeeklyRecord where
  weekStart : Int
  weekEnd : Int
  totalSales : ℚ
  totalOrders : Int
  topProduct : String
  topCustomer : String
deriving DecidableEq, Repr

/-- `DataProcessor._calculate_percentage_change`:
`if previous == 0: return 100.0 if current > 0 else 0.0` then
`((current - previous) / previous) * 100`. -/
def calculate_percentage_change (current previous : ℚ) : ℚ :=
  if previous = 0 then (if current > 0 then 100 else 0)
  else ((current - previous) / previous) * 100

/-- Arithmetic mean of a list of values (`Series.mean`). -/
def listMean (xs : List ℚ) : ℚ :=
  xs.sum / xs.length

/-- Maximum of a list of values (`Series.max`); `0` on the empty list,
which the callers never pass. -/
def listMax : List ℚ → ℚ
  | [] => 0
  | a :: rest => rest.foldl max a

/-- Minimum of a list of values (`Series.min`); `0` on the empty list,
which the callers never pass. -/
def listMin : List ℚ → ℚ
  | [] => 0
  | a :: rest => rest.foldl min a

/-- Sample standard deviation (`Series.std`, `ddof = 1`) of a list with at
least two elements: `sqrt (Σ (x - mean)² / (n - 1))`. -/
noncomputable def sampleStdVal (xs : List ℚ) : ℝ :=
  Real.sqrt (((xs.map (fun x => ((x : ℝ) - (listMean xs : ℝ)) ^ 2)).sum) /
    ((xs.length : ℝ) - 1))

/-- `Series.std` as the code observes it: pandas returns `NaN` for fewer
than two observations (modelled as `none`), a real number otherwise. -/
noncomputable def sampleStd (xs : List ℚ) : Option ℝ :=
  if xs.length < 2 then none else some (sampleStdVal xs)

/-- `DataProcessor._calculate_growth_rate`: compound average growth rate
from the first to the last value of a column over `len - 1` periods;
`0.0` for fewer than two rows or a non-positive first value. -/
noncomputable def calculate_growth_rate (values : List ℚ) : ℝ :=
  if values.length < 2 then 0
  else
    let first : ℚ := values.headI
    let last : ℚ := values.getLastD 0
    let periods : ℕ := values.length - 1
    if first ≤ 0 then 0
    else (((last : ℝ) / (first : ℝ)) ^ ((1 : ℝ) / (periods : ℝ)) - 1) * 100

/-- The running-maximum fold behind `Series.value_counts().index[0]`:
scan the candidates in order, replacing the current best label only on a
strictly larger occurrence count, so the first-appearing label wins ties. -/
def pickMax (l : List String) : List String → String → String
  | [], best => best
  | x :: xs, best => pickMax l xs (if l.count best < l.count x then x else best)

/-- `Series.value_counts().index[0]`: the most frequent label of the
column, ties resolved in favour of the earliest first appearance
(pandas sorts the counts with a stable sort over the labels in order of
first appearance); the string None when the column is empty, matching
the empty-counts guard of the callers. -/
def mostFrequent : List String → String
  | [] => "None"
  | a :: rest => pickMax (a :: rest) rest a

/-- Result of `DataProcessor._analyze_products`. -/
structure ProductsAnalysis where
  most_frequent_top_product : String
  product_frequency : String → ℕ
  unique_products_count : ℕ
  current_top_product : String

/-- Result of `DataProcessor._analyze_customers`. -/
structure CustomersAnalysis where
  most_frequent_top_customer : String
  customer_frequency : String → ℕ
  unique_customers_count : ℕ
  current_top_customer : String

/-- `DataProcessor._analyze_products`. -/
def analyze_products (data : List WeeklyRecord) : ProductsAnalysis :=
  let l := data.map (·.topProduct)
  { most_frequent_top_product := mostFrequent l
    product_frequency := fun s => l.count s
    unique_products_count := l.dedup.length
    current_top_product :=
      match data.getLast? with
      | some r => r.topProduct
      | none => "None" }

/-- `DataProcessor._analyze_customers`. -/
def analyze_customers (data : List WeeklyRecord) : CustomersAnalysis :=
  let l := data.map (·.topCustomer)
  { most_frequent_top_customer := mostFrequent l
    customer_frequency := fun s => l.count s
    unique_customers_count := l.dedup.length
    current_top_customer :=
      match data.getLast? with
      | some r => r.topCustomer
      | none => "None" }

/-- Least-squares linear regression slope of a column against the
zero-based week index (`np.polyfit(range(len(data)), column, 1)[0]`). -/
def lsSlope (ys : List ℚ) : ℚ :=
  let n : ℚ := ys.length
  let xs : List ℚ := (List.range ys.length).map (fun i => (i : ℚ))
  let sx := xs.sum
  let sy := ys.sum
  let sxy := ((xs.zip ys).map (fun p => p.1 * p.2)).sum
  let sxx := (xs.map (fun x => x * x)).sum
  (n * sxy - sx * sy) / (n * sxx - sx * sx)

/-- Trailing 3-period simple moving average (`rolling(window=3).mean()`
at the last row); only used when at least 3 rows exist. -/
def latestMa3 (xs : List ℚ) : ℚ :=
  listMean (xs.drop (xs.length - 3))

/-- Direction string derived from a slope: increasing when the slope is
positive, decreasing when it is negative, stable otherwise. -/
def trendDirection (slope : ℚ) : String :=
  if slope > 0 then "increasing" else if slope < 0 then "decreasing" else "stable"

/-- The slope/direction/volatility fields returned by
`DataProcessor._calculate_trends` when enough data exists. -/
structure TrendInfo where
  sales_trend_slope : ℚ
  orders_trend_slope : ℚ
  sales_trend_direction : String
  orders_trend_direction : String
  sales_volatility : ℝ
  orders_volatility : ℝ
  latest_ma3_sales : ℚ
  latest_ma3_orders : ℚ

/-- Result of `DataProcessor._calculate_trends`: either the
insufficient-data marker dictionary (which carries no slope/volatility
fields) or the full trend dictionary. -/
inductive TrendsResult where
  | insufficientData
  | computed (t : TrendInfo)

/-- The trend dictionary `_calculate_trends` builds once enough data
exists: regression slopes, directions, coefficients of variation
(`std / mean`) and trailing moving averages. -/
noncomputable def trendInfoOf (data : List WeeklyRecord) : TrendInfo :=
  let sales := data.map (·.totalSales)
  let orders := data.map (fun r => (r.totalOrders : ℚ))
  let salesSlope := lsSlope sales
  let ordersSlope := lsSlope orders
  { sales_trend_slope := salesSlope
    orders_trend_slope := ordersSlope
    sales_trend_direction := trendDirection salesSlope
    orders_trend_direction := trendDirection ordersSlope
    sales_volatility := sampleStdVal sales / (listMean sales : ℝ)
    orders_volatility := sampleStdVal orders / (listMean orders : ℝ)
    latest_ma3_sales := latestMa3 sales
    latest_ma3_orders := latestMa3 orders }

/-- `DataProcessor._calculate_trends`: the insufficient-data marker for
fewer than 3 rows, otherwise the full trend dictionary. -/
noncomputable def calculate_trends (data : List WeeklyRecord) : TrendsResult :=
  if data.length < 3 then .insufficientData
  else .computed (trendInfoOf data)

/-- The warning the validator can log
(`"Data contains unusually high sales values"`). -/
inductive ValidationWarning where
  | highSalesValues
deriving DecidableEq, Repr

/-- The two `ValueError` reasons `_validate_data_integrity` can raise. -/
inductive ValidationError where
  | negativeValues
  | invertedDates
deriving DecidableEq, Repr

/-- Median of a column (`Series.median`): middle element of the sorted
values, or the mean of the two middle elements; `0` stands in for the
empty column (pandas yields `NaN` there, and the only use compares a
value of the column against it, vacuous on an empty column). -/
def median (xs : List ℚ) : ℚ :=
  let s := xs.insertionSort (· ≤ ·)
  let n := xs.length
  if n = 0 then 0
  else if n % 2 = 1 then s.getD (n / 2) 0
  else (s.getD (n / 2 - 1) 0 + s.getD (n / 2) 0) / 2

/-- `DataProcessor._validate_data_integrity`, with its observable
effects in program order: first the negative-values check (raises),
then the 10×-median soft check (logs a warning only), then the
date-consistency check (raises). The first component collects the
warnings emitted before the function returns or raises; the second is
the raised error, if any. -/
def validate_data_integrity (data : List WeeklyRecord) :
    List ValidationWarning × Option ValidationError :=
  if ∃ r ∈ data, r.totalSales < 0 ∨ r.totalOrders < 0 then
    ([], some .negativeValues)
  else
    let maxReasonable := median (data.map (·.totalSales)) * 10
    let warnings :=
      if ∃ r ∈ data, r.totalSales > maxReasonable then
        [ValidationWarning.highSalesValues]
      else []
    if ∃ r ∈ data, r.weekEnd ≤ r.weekStart then
      (warnings, some .invertedDates)
    else (warnings, none)

/-- Modelled from the spec: the validation order as the specification
states it — (1) negative values raise, (2) inverted date ranges raise,
(3) only then the 10×-median soft check emits its warning. Written for
comparison against `validate_data_integrity`, which is translated from
the source. -/
def validateSpecOrder (data : List WeeklyRecord) :
    List ValidationWarning × Option ValidationError :=
  if ∃ r ∈ data, r.totalSales < 0 ∨ r.totalOrders < 0 then
    ([], some .negativeValues)
  else if ∃ r ∈ data, r.weekEnd ≤ r.weekStart then
    ([], some .invertedDates)
  else
    let maxReasonable := median (data.map (·.totalSales)) * 10
    if ∃ r ∈ data, r.totalSales > maxReasonable then
      ([ValidationWarning.highSalesValues], none)
    else ([], none)

/-- The current-week section of the metrics dictionary (the two
`strftime` renderings of each date are presentation-only copies of the
date fields and are not re-modelled). -/
structure CurrentWeek where
  sales : ℚ
  orders : Int
  top_product : String
  top_customer : String
  week_start : Int
  week_end : Int

/-- The previous-week section of the metrics dictionary. -/
structure PreviousWeek where
  sales : ℚ
  orders : Int

/-- The changes section of the metrics dictionary. -/
structure Changes where
  sales_change : ℚ
  orders_change : ℚ
  sales_absolute_change : ℚ
  orders_absolute_change : Int

/-- The AOV section of the metrics dictionary. -/
structure AovMetrics where
  current : ℚ
  previous : ℚ
  change : ℚ

/-- The historical section of the metrics dictionary
(`_calculate_historical_metrics`). -/
structure Historical where
  total_sales : ℚ
  total_orders : Int
  average_weekly_sales : ℚ
  average_weekly_orders : ℚ
  max_weekly_sales : ℚ
  min_weekly_sales : ℚ
  sales_std_dev : Option ℝ
  weeks_count : ℕ
  sales_growth_rate : ℝ
  orders_growth_rate : ℝ

/-- The full metrics dictionary returned by
`DataProcessor.calculate_metrics`. -/
structure MetricsSnapshot where
  current_week : CurrentWeek
  previous_week : PreviousWeek
  changes : Changes
  aov : AovMetrics
  historical : Historical
  products : ProductsAnalysis
  customers : CustomersAnalysis
  trends : TrendsResult

/-- How `calculate_metrics` fails: indexing `data.iloc[-1]` on an empty
frame raises (the spec's `InsufficientDataError`). -/
inductive MetricsError where
  | insufficientData
deriving DecidableEq, Repr

/-- `DataProcessor._calculate_historical_metrics`. -/
noncomputable def calculate_historical_metrics (data : List WeeklyRecord) : Historical :=
  let sales := data.map (·.totalSales)
  let orders := data.map (fun r => (r.totalOrders : ℚ))
  { total_sales := sales.sum
    total_orders := (data.map (·.totalOrders)).sum
    average_weekly_sales := listMean sales
    average_weekly_orders := listMean orders
    max_weekly_sales := listMax sales
    min_weekly_sales := listMin sales
    sales_std_dev := sampleStd sales
    weeks_count := data.length
    sales_growth_rate := calculate_growth_rate sales
    orders_growth_rate := calculate_growth_rate orders }

/-- `DataProcessor.calculate_metrics`: fails on an empty dataset
(`data.iloc[-1]` raises), otherwise builds the snapshot from the latest
record, the previous record (`iloc[-2]` when more than one row exists,
else the latest itself), the change and AOV metrics, the historical
aggregates, the frequency analyses and the trends. -/
noncomputable def calculate_metrics (data : List WeeklyRecord) :
    Except MetricsError MetricsSnapshot :=
  match data.getLast? with
  | none => .error .insufficientData
  | some latest_week =>
    let previous_week :=
      if 1 < data.length then (data.dropLast).getLastD latest_week else latest_week
    let current_sales := latest_week.totalSales
    let previous_sales := previous_week.totalSales
    let current_orders := latest_week.totalOrders
    let previous_orders := previous_week.totalOrders
    let current_aov : ℚ :=
      if 0 < current_orders then current_sales / (current_orders : ℚ) else 0
    let previous_aov : ℚ :=
      if 0 < previous_orders then previous_sales / (previous_orders : ℚ) else 0
    .ok
      { current_week :=
          { sales := current_sales
            orders := current_orders
            top_product := latest_week.topProduct
            top_customer := latest_week.topCustomer
            week_start := latest_week.weekStart
            week_end := latest_week.weekEnd }
        previous_week := { sales := previous_sales, orders := previous_orders }
        changes :=
          { sales_change := calculate_percentage_change current_sales previous_sales
            orders_change :=
              calculate_percentage_change (current_orders : ℚ) (previous_orders : ℚ)
            sales_absolute_change := current_sales - previous_sales
            orders_absolute_change := current_orders - previous_orders }
        aov :=
          { current := current_aov
            previous := previous_aov
            change := calculate_percentage_change current_aov previous_aov }
        historical := calculate_historical_metrics data
        products := analyze_products data
        customers := analyze_customers data
        trends := calculate_trends data }

/-! ## Insights engine (`insights_generator.py`) -/

/-- `InsightsGenerator._get_performance_qualifier`. -/
def get_performance_qualifier (change : ℚ) : String :=
  if |change| ≥ 20 then "dramatically"
  else if |change| ≥ 10 then "significantly"
  else if |change| ≥ 5 then "moderately"
  else "slightly"

/-- `InsightsGenerator._get_status_level`. -/
def get_status_level (change : ℚ) : String :=
  if change ≥ 10 then "excellent"
  else if change ≥ 5 then "good"
  else if change ≥ 0 then "fair"
  else if change ≥ -5 then "concerning"
  else "critical"

/-- One recommendation dictionary of
`InsightsGenerator._generate_recommendations`. -/
structure Recommendation where
  priority : String
  category : String
  title : String
  description : String
  expected_impact : String
  timeline : String
deriving DecidableEq, Repr

/-- The `Sales Recovery` recommendation dictionary. -/
def salesRecoveryRec : Recommendation :=
  { priority := "High", category := "Sales Recovery"
    title := "Implement Sales Recovery Plan"
    description := "Sales have declined significantly. Consider promotional campaigns, customer outreach, or market analysis."
    expected_impact := "High", timeline := "1-2 weeks" }

/-- The `Growth Optimization` recommendation dictionary. -/
def growthOptimizationRec : Recommendation :=
  { priority := "Medium", category := "Growth Optimization"
    title := "Scale Successful Strategies"
    description := "Strong sales growth achieved. Identify and replicate successful strategies to sustain momentum."
    expected_impact := "High", timeline := "2-4 weeks" }

/-- The `Customer Acquisition` recommendation dictionary. -/
def customerAcquisitionRec : Recommendation :=
  { priority := "Medium", category := "Customer Acquisition"
    title := "Focus on Customer Acquisition"
    description := "Fewer orders but higher AOV suggests need for broader customer reach while maintaining quality."
    expected_impact := "Medium", timeline := "3-4 weeks" }

/-- The `Revenue Optimization` recommendation dictionary. -/
def revenueOptimizationRec : Recommendation :=
  { priority := "Medium", category := "Revenue Optimization"
    title := "Implement Upselling Strategies"
    description := "More orders but lower AOV. Consider product bundling, premium options, or cross-selling."
    expected_impact := "Medium", timeline := "2-3 weeks" }

/-- The `Product Strategy` recommendation dictionary. -/
def productStrategyRec : Recommendation :=
  { priority := "Low", category := "Product Strategy"
    title := "Diversify Product Portfolio"
    description := "Limited product variety in top performers. Analyze market opportunities for expansion."
    expected_impact := "Medium", timeline := "4-8 weeks" }

/-- The `Business Stability` recommendation dictionary. -/
def businessStabilityRec : Recommendation :=
  { priority := "Medium", category := "Business Stability"
    title := "Reduce Business Volatility"
    description := "High sales volatility detected. Review operational processes and market factors."
    expected_impact := "High", timeline := "4-6 weeks" }

/-- The `Growth Acceleration` recommendation dictionary. -/
def growthAccelerationRec : Recommendation :=
  { priority := "Low", category := "Growth Acceleration"
    title := "Accelerate Growth Initiatives"
    description := "Moderate growth rate suggests room for improvement. Consider market expansion or innovation."
    expected_impact := "Medium", timeline := "6-12 weeks" }

/-- `InsightsGenerator._generate_recommendations`: the decision table,
appended in program order. Sales rules and order rules are
`if`/`elif` pairs; the product, volatility and growth rules are
independent conditionals. The products-in-metrics and
historical-in-metrics guards are always true for a snapshot built by
`calculate_metrics`; the trends guard checks the insufficient-data
marker. -/
noncomputable def generate_recommendations (m : MetricsSnapshot) : List Recommendation :=
  (if m.changes.sales_change < -5 then [salesRecoveryRec]
   else if m.changes.sales_change > 10 then [growthOptimizationRec]
   else []) ++
  (if m.changes.orders_change < 0 ∧ m.aov.change > 0 then [customerAcquisitionRec]
   else if m.changes.orders_change > 0 ∧ m.aov.change < 0 then [revenueOptimizationRec]
   else []) ++
  (if m.products.unique_products_count < 3 then [productStrategyRec] else []) ++
  (match m.trends with
   | .insufficientData => []
   | .computed t => if t.sales_volatility > 0.2 then [businessStabilityRec] else []) ++
  (if 0 < m.historical.sales_growth_rate ∧ m.historical.sales_growth_rate < 5 then
    [growthAccelerationRec]
   else [])

/-- A fixed sample record (the first row of the bundled sample data),
used to instantiate witnesses. -/
def sampleRecord : WeeklyRecord :=
  { weekStart := 0, weekEnd := 7, totalSales := 12500, totalOrders := 45
    topProduct := "Laptop", topCustomer := "Alpha Corp" }

/-- A three-record dataset whose last row both inverts its date range
and exceeds ten times the median sales: the soft high-sales check and
the date check apply to the same dataset. -/
def invertedHighSalesData : List WeeklyRecord :=
  [{ weekStart := 0, weekEnd := 1, totalSales := 1, totalOrders := 1
     topProduct := "A", topCustomer := "X" },
   { weekStart := 1, weekEnd := 2, totalSales := 1, totalOrders := 1
     topProduct := "A", topCustomer := "X" },
   { weekStart := 3, weekEnd := 2, totalSales := 100, totalOrders := 1
     topProduct := "B", topCustomer := "Y" }]

/-! ## Shared lemmas -/

/-- The percentage change of a value against itself is zero. -/
theorem pct_change_self (v : ℚ) : calculate_percentage_change v v = 0 := by
  rw [calculate_percentage_change]
  split_ifs with h h2
  · exact absurd h2 (by rw [h]; exact lt_irrefl 0)
  · rfl
  · rw [sub_self, zero_div, zero_mul]

/-- `calculate_metrics` on a nonempty dataset reaches the `.ok` branch. -/
theorem calculate_metrics_ne_nil {data : List WeeklyRecord} (h : data ≠ []) :
    ∃ s, calculate_metrics data = .ok s := by
  obtain ⟨a, ha⟩ : ∃ a, data.getLast? = some a := by
    cases hq : data.getLast? with
    | none => exact absurd (List.getLast?_eq_none_iff.1 hq) h
    | some a => exact ⟨a, rfl⟩
  unfold calculate_metrics
  rw [ha]
  exact ⟨_, rfl⟩

/-! ## Claim theorems -/

/-- C1: for every pair of rational values, `_calculate_percentage_change`
returns `100` when the previous value is `0` and the current is positive,
`0` when the previous value is `0` and the current is non-positive, and
`(curr - prev) / prev * 100` otherwise; and every snapshot built by
`calculate_metrics` obtains its sales change, orders change and AOV
change by applying this same function to the respective pairs. -/
theorem percentage_change_spec (curr prev : ℚ) :
    (prev = 0 → 0 < curr → calculate_percentage_change curr prev = 100) ∧
    (prev = 0 → curr ≤ 0 → calculate_percentage_change curr prev = 0) ∧
    (prev ≠ 0 → calculate_percentage_change curr prev = (curr - prev) / prev * 100) ∧
    (∀ (data : List WeeklyRecord) (s : MetricsSnapshot), calculate_metrics data = .ok s →
      s.changes.sales_change =
        calculate_percentage_change s.current_week.sales s.previous_week.sales ∧
      s.changes.orders_change =
        calculate_percentage_change (s.current_week.orders : ℚ) (s.previous_week.orders : ℚ) ∧
      s.aov.change = calculate_percentage_change s.aov.current s.aov.previous) := by
  refine ⟨?_, ?_, ?_, ?_⟩
  · intro h hc
    rw [calculate_percentage_change, if_pos h, if_pos hc]
  · intro h hc
    rw [calculate_percentage_change, if_pos h, if_neg (not_lt.mpr hc)]
  · intro h
    rw [calculate_percentage_change, if_neg h]
  · intro data s h
    unfold calculate_metrics at h
    cases hq : data.getLast? with
    | none => rw [hq] at h; exact absurd h (by simp)
    | some latest =>
      rw [hq] at h
      cases h
      exact ⟨rfl, rfl, rfl⟩

/-- Witness for C1 at concrete inputs. -/
theorem percentage_change_spec_witness :
    calculate_percentage_change 3 0 = 100 ∧
    calculate_percentage_change 0 0 = 0 ∧
    calculate_percentage_change 7 2 = 250 := by
  refine ⟨(percentage_change_spec 3 0).1 rfl (by norm_num),
    (percentage_change_spec 0 0).2.1 rfl le_rfl, ?_⟩
  rw [(percentage_change_spec 7 2).2.2.1 (by norm_num)]
  norm_num

/-- C8: `_get_status_level` classifies a percentage change as
`excellent` on `[10, ∞)`, `good` on `[5, 10)`, `fair` on `[0, 5)`,
`concerning` on `[-5, 0)` and `critical` below `-5`; and
`_get_performance_qualifier` classifies its absolute value as
`dramatically` on `[20, ∞)`, `significantly` on `[10, 20)`,
`moderately` on `[5, 10)` and `slightly` below `5`; in particular
`5.526` maps to `good` and `moderately`. -/
theorem status_and_qualifier_spec (c : ℚ) :
    (10 ≤ c → get_status_level c = "excellent") ∧
    (5 ≤ c → c < 10 → get_status_level c = "good") ∧
    (0 ≤ c → c < 5 → get_status_level c = "fair") ∧
    (-5 ≤ c → c < 0 → get_status_level c = "concerning") ∧
    (c < -5 → get_status_level c = "critical") ∧
    (20 ≤ |c| → get_performance_qualifier c = "dramatically") ∧
    (10 ≤ |c| → |c| < 20 → get_performance_qualifier c = "significantly") ∧
    (5 ≤ |c| → |c| < 10 → get_performance_qualifier c = "moderately") ∧
    (|c| < 5 → get_performance_qualifier c = "slightly") ∧
    get_status_level (5.526 : ℚ) = "good" ∧
    get_performance_qualifier (5.526 : ℚ) = "moderately" := by
  refine ⟨?_, ?_, ?_, ?_, ?_, ?_, ?_, ?_, ?_, ?_, ?_⟩
  · intro h; rw [get_status_level, if_pos h]
  · intro h1 h2
    rw [get_status_level, if_neg (not_le.mpr h2), if_pos h1]
  · intro h1 h2
    rw [get_status_level, if_neg (by linarith : ¬ c ≥ 10),
      if_neg (not_le.mpr h2), if_pos h1]
  · intro h1 h2
    rw [get_status_level, if_neg (by linarith : ¬ c ≥ 10),
      if_neg (by linarith : ¬ c ≥ 5), if_neg (not_le.mpr h2), if_pos h1]
  · intro h
    rw [get_status_level, if_neg (by linarith : ¬ c ≥ 10),
      if_neg (by linarith : ¬ c ≥ 5), if_neg (by linarith : ¬ c ≥ 0),
      if_neg (not_le.mpr h)]
  · intro h; rw [get_performance_qualifier, if_pos h]
  · intro h1 h2
    rw [get_performance_qualifier, if_neg (not_le.mpr h2), if_pos h1]
  · intro h1 h2
    rw [get_performance_qualifier, if_neg (by linarith : ¬ |c| ≥ 20),
      if_neg (not_le.mpr h2), if_pos h1]
  · intro h
    rw [get_performance_qualifier, if_neg (by linarith : ¬ |c| ≥ 20),
      if_neg (by linarith : ¬ |c| ≥ 10), if_neg (not_le.mpr h)]
  · norm_num [get_status_level]
  · have habs : |(5.526 : ℚ)| = 5.526 := abs_of_nonneg (by norm_num)
    rw [get_performance_qualifier, habs, if_neg (by norm_num), if_neg (by norm_num),
      if_pos (by norm_num)]

/-- Witness for C8 at concrete inputs. -/
theorem status_and_qualifier_spec_witness :
    get_status_level 12 = "excellent" ∧
    get_status_level (-3) = "concerning" ∧
    get_performance_qualifier (-12) = "significantly" := by
  have habs : |(-12 : ℚ)| = 12 := by
    rw [abs_of_nonpos (by norm_num)]; norm_num
  refine ⟨(status_and_qualifier_spec 12).1 (by norm_num),
    ((status_and_qualifier_spec (-3)).2.2.2.1 (by norm_num) (by norm_num)),
    ((status_and_qualifier_spec (-12)).2.2.2.2.2.2.1 (by rw [habs]; norm_num)
      (by rw [habs]; norm_num))⟩

/-- C5: computing metrics on an empty dataset fails with the
insufficient-data error rather than returning a partial snapshot; a
single record is already enough for the computation to succeed. -/
theorem metrics_empty_dataset_raises :
    calculate_metrics ([] : List WeeklyRecord) = .error .insufficientData ∧
    ∀ data : List WeeklyRecord, data ≠ [] → ∃ s, calculate_metrics data = .ok s :=
  ⟨rfl, fun _ h => calculate_metrics_ne_nil h⟩

/-- Witness for C5: a one-record dataset succeeds. -/
theorem metrics_empty_dataset_raises_witness :
    ∃ s, calculate_metrics [sampleRecord] = .ok s :=
  metrics_empty_dataset_raises.2 [sampleRecord] (by simp)

/-- C7: on a one-record dataset, `calculate_metrics` uses the single
record as both current and previous week, and every change metric
evaluates to `0` by the percentage-change rule applied to equal
values. -/
theorem single_record_changes (r : WeeklyRecord) :
    ∃ s, calculate_metrics [r] = .ok s ∧
      s.previous_week.sales = s.current_week.sales ∧
      s.previous_week.orders = s.current_week.orders ∧
      s.changes.sales_change = 0 ∧
      s.changes.orders_change = 0 ∧
      s.changes.sales_absolute_change = 0 ∧
      s.changes.orders_absolute_change = 0 ∧
      s.aov.change = 0 :=
  ⟨_, rfl, rfl, rfl, pct_change_self _, pct_change_self _, sub_self _, sub_self _,
    pct_change_self _⟩

/-- C10: on a one-record dataset, metrics computation succeeds (no
error is raised and no insufficient-data marker appears in the
historical aggregates) and the sample standard deviation of sales is
the undefined value pandas renders as `NaN` (modelled as `none`), not
`0` and not an error. -/
theorem single_record_std_is_nan (r : WeeklyRecord) :
    ∃ s, calculate_metrics [r] = .ok s ∧
      s.historical.sales_std_dev = none ∧
      ∀ x : ℝ, s.historical.sales_std_dev ≠ some x :=
  ⟨_, rfl, rfl, fun x h => by exact absurd h (by simp [calculate_historical_metrics, sampleStd])⟩

/-- C4: `_calculate_trends` returns the insufficient-data marker (and
hence no slope/volatility fields) exactly when the dataset has fewer
than 3 records, and returns the full trend dictionary exactly when it
has 3 or more. -/
theorem trends_insufficient_iff (data : List WeeklyRecord) :
    (calculate_trends data = .insufficientData ↔ data.length < 3) ∧
    ((∃ t, calculate_trends data = .computed t) ↔ 3 ≤ data.length) := by
  by_cases h : data.length < 3
  · rw [calculate_trends, if_pos h]
    refine ⟨⟨fun _ => h, fun _ => rfl⟩, ?_, ?_⟩
    · rintro ⟨t, ht⟩
      exact absurd ht (by simp)
    · intro h3; omega
  · rw [calculate_trends, if_neg h]
    refine ⟨⟨fun hEq => absurd hEq (by simp), fun hlt => absurd hlt h⟩, ?_, ?_⟩
    · intro _; omega
    · intro _; exact ⟨_, rfl⟩

/-- C3: the growth rate computed by `_calculate_growth_rate` round-trips:
for a dataset whose first value is positive, with at least one period and
a non-negative last value (the data model only admits non-negative sales
and orders), compounding the first value by the computed per-period rate
over `N = count - 1` periods recovers the last value exactly; and the
rate is `0` whenever the first value is non-positive or fewer than two
rows exist. -/
theorem growth_rate_roundtrip (values : List ℚ) :
    (2 ≤ values.length → 0 < values.headI → 0 ≤ values.getLastD 0 →
      (values.headI : ℝ) * (1 + calculate_growth_rate values / 100) ^ (values.length - 1) =
        (values.getLastD 0 : ℝ)) ∧
    (values.length < 2 ∨ values.headI ≤ 0 → calculate_growth_rate values = 0) := by
  constructor
  · intro h2 h0 hN
    simp only [calculate_growth_rate]
    rw [if_neg (by omega : ¬ values.length < 2), if_neg (not_le.mpr h0)]
    set v0 : ℝ := ((values.headI : ℚ) : ℝ) with hv0
    set vN : ℝ := ((values.getLastD 0 : ℚ) : ℝ) with hvN
    set N : ℕ := values.length - 1 with hNdef
    have hv0pos : (0 : ℝ) < v0 := by rw [hv0]; exact_mod_cast h0
    have hvNnn : (0 : ℝ) ≤ vN := by rw [hvN]; exact_mod_cast hN
    have hNne : ((N : ℝ)) ≠ 0 := Nat.cast_ne_zero.mpr (by omega)
    have hbase : (0 : ℝ) ≤ vN / v0 := div_nonneg hvNnn hv0pos.le
    have hsimp : 1 + ((vN / v0) ^ ((1 : ℝ) / (N : ℝ)) - 1) * 100 / 100 =
        (vN / v0) ^ ((1 : ℝ) / (N : ℝ)) := by ring
    rw [hsimp, ← Real.rpow_natCast ((vN / v0) ^ ((1 : ℝ) / (N : ℝ))) N,
      ← Real.rpow_mul hbase, one_div_mul_cancel hNne, Real.rpow_one,
      mul_div_cancel₀ vN hv0pos.ne']
  · intro h
    rcases h with h | h
    · rw [calculate_growth_rate, if_pos h]
    · simp only [calculate_growth_rate]
      split_ifs
      · rfl
      · rfl

/-- Witness for C3: on the dataset `[1, 4]` the computed rate is `300`
and one compounding step recovers `4`; the empty dataset has rate `0`. -/
theorem growth_rate_roundtrip_witness :
    (1 : ℝ) * (1 + calculate_growth_rate [1, 4] / 100) ^ 1 = 4 ∧
    calculate_growth_rate [] = 0 := by
  constructor
  · have h := (growth_rate_roundtrip [1, 4]).1 (by decide) (by decide) (by decide)
    simpa using h
  · exact (growth_rate_roundtrip []).2 (Or.inl (by decide))

/-- C6 counterexample: the checks do not run in the order the claim
states. On a dataset whose last record both inverts its dates and
exceeds ten times the median sales, the code performs the soft
10×-median check (emitting its warning) before the date check raises,
whereas under the claimed order (negatives, then dates, then the soft
check) the date error would be raised before any warning is emitted. -/
theorem validation_order_counterexample :
    validate_data_integrity invertedHighSalesData ≠
      validateSpecOrder invertedHighSalesData ∧
    validate_data_integrity invertedHighSalesData =
      ([ValidationWarning.highSalesValues], some ValidationError.invertedDates) ∧
    validateSpecOrder invertedHighSalesData =
      ([], some ValidationError.invertedDates) := by
  have hmed : median (invertedHighSalesData.map (·.totalSales)) = 1 := by
    norm_num [median, invertedHighSalesData, List.insertionSort, List.orderedInsert]
  have hneg : ¬ ∃ r ∈ invertedHighSalesData, r.totalSales < 0 ∨ r.totalOrders < 0 := by
    decide
  have hdate : ∃ r ∈ invertedHighSalesData, r.weekEnd ≤ r.weekStart := by
    decide
  have hhigh : ∃ r ∈ invertedHighSalesData,
      r.totalSales > median (invertedHighSalesData.map (·.totalSales)) * 10 := by
    refine ⟨{ weekStart := 3, weekEnd := 2, totalSales := 100, totalOrders := 1
              topProduct := "B", topCustomer := "Y" }, by decide, ?_⟩
    rw [hmed]
    norm_num
  have e1 : validate_data_integrity invertedHighSalesData =
      ([ValidationWarning.highSalesValues], some ValidationError.invertedDates) := by
    simp only [validate_data_integrity]
    rw [if_neg hneg, if_pos hhigh, if_pos hdate]
  have e2 : validateSpecOrder invertedHighSalesData =
      ([], some ValidationError.invertedDates) := by
    simp only [validateSpecOrder]
    rw [if_neg hneg, if_pos hdate]
  refine ⟨?_, e1, e2⟩
  rw [e1, e2]
  simp

/-- C6 amended: `_validate_data_integrity` raises on any negative
`totalSales`/`totalOrders` first; otherwise the 10×-median check runs
second and only ever emits a warning (also on datasets that
subsequently fail the date check); the `weekEnd <= weekStart` check
runs last and raises. The raised error is `negativeValues` exactly
when a negative value exists, `invertedDates` exactly when there is no
negative value but an inverted date range, and nothing otherwise; the
warning is emitted exactly when there is no negative value and some
record exceeds ten times the median sales. -/
theorem validation_checks_behavior (data : List WeeklyRecord) :
    ((validate_data_integrity data).2 = some ValidationError.negativeValues ↔
      ∃ r ∈ data, r.totalSales < 0 ∨ r.totalOrders < 0) ∧
    ((validate_data_integrity data).2 = some ValidationError.invertedDates ↔
      (¬ ∃ r ∈ data, r.totalSales < 0 ∨ r.totalOrders < 0) ∧
        ∃ r ∈ data, r.weekEnd ≤ r.weekStart) ∧
    ((validate_data_integrity data).1 = [ValidationWarning.highSalesValues] ↔
      (¬ ∃ r ∈ data, r.totalSales < 0 ∨ r.totalOrders < 0) ∧
        ∃ r ∈ data, r.totalSales > median (data.map (·.totalSales)) * 10) ∧
    ((validate_data_integrity data).2 = none ↔
      (¬ ∃ r ∈ data, r.totalSales < 0 ∨ r.totalOrders < 0) ∧
        ¬ ∃ r ∈ data, r.weekEnd ≤ r.weekStart) := by
  simp only [validate_data_integrity]
  split_ifs with h1 h2 h3 h4 <;>
    simp_all [List.any_eq_true, decide_eq_true_eq, Bool.or_eq_true]

/-- C9: a `Growth Acceleration` recommendation appears in the output of
`_generate_recommendations` if and only if the historical sales growth
rate lies strictly between `0` and `5`; at a growth rate of `0`, of `5`,
or above `5`, the rule does not fire. -/
theorem growth_acceleration_iff (m : MetricsSnapshot) :
    (∃ r ∈ generate_recommendations m, r.category = "Growth Acceleration") ↔
      0 < m.historical.sales_growth_rate ∧ m.historical.sales_growth_rate < 5 := by
  constructor
  · rintro ⟨r, hr, hcat⟩
    simp only [generate_recommendations, List.mem_append] at hr
    rcases hr with ((((h | h) | h) | h) | h)
    · split_ifs at h <;> simp only [List.mem_singleton, List.not_mem_nil] at h <;>
        exact absurd (h ▸ hcat) (by decide)
    · split_ifs at h <;> simp only [List.mem_singleton, List.not_mem_nil] at h <;>
        exact absurd (h ▸ hcat) (by decide)
    · split_ifs at h <;> simp only [List.mem_singleton, List.not_mem_nil] at h
      exact absurd (h ▸ hcat) (by decide)
    · cases htr : m.trends with
      | insufficientData => rw [htr] at h; exact absurd h (List.not_mem_nil r)
      | computed t =>
        rw [htr] at h
        have h' : r ∈ (if t.sales_volatility > 0.2 then [businessStabilityRec] else []) := h
        split_ifs at h' <;> simp only [List.mem_singleton, List.not_mem_nil] at h'
        exact absurd (h' ▸ hcat) (by decide)
    · split_ifs at h with hg
      · exact hg
      · exact absurd h (List.not_mem_nil r)
  · intro hg
    refine ⟨growthAccelerationRec, ?_, rfl⟩
    simp only [generate_recommendations, List.mem_append]
    refine Or.inr ?_
    rw [if_pos hg]
    exact List.mem_singleton_self _

/-- Invariant of the `pickMax` scan: if the labels already processed
(`done`, a prefix of `l` with the remaining candidates `cs`) contain the
running best, the running best has a maximal count among them and the
earliest first appearance among those tied with it, then the final
result is a member of `l` with maximal count over all of `l` and the
earliest first appearance among all tied labels of `l`. -/
theorem pickMax_invariant (l : List String) :
    ∀ (cs done : List String) (best : String),
      l = done ++ cs → best ∈ done →
      (∀ s ∈ done, l.count s ≤ l.count best) →
      (∀ s ∈ done, l.count s = l.count best → l.indexOf best ≤ l.indexOf s) →
      pickMax l cs best ∈ l ∧
      (∀ s ∈ l, l.count s ≤ l.count (pickMax l cs best)) ∧
      (∀ s ∈ l, l.count s = l.count (pickMax l cs best) →
        l.indexOf (pickMax l cs best) ≤ l.indexOf s) := by
  intro cs
  induction cs with
  | nil =>
    intro done best hsplit hmem hmax htie
    rw [List.append_nil] at hsplit
    subst hsplit
    exact ⟨hmem, hmax, htie⟩
  | cons x cs' ih =>
    intro done best hsplit hmem hmax htie
    rw [pickMax]
    by_cases hcond : l.count best < l.count x
    · rw [if_pos hcond]
      refine ih (done ++ [x]) x ?_ ?_ ?_ ?_
      · rw [hsplit, List.append_assoc]; rfl
      · exact List.mem_append_right done (List.mem_singleton_self x)
      · intro s hs
        rcases List.mem_append.1 hs with hs | hs
        · exact le_of_lt (lt_of_le_of_lt (hmax s hs) hcond)
        · rw [List.mem_singleton.1 hs]
      · intro s hs hcount
        rcases List.mem_append.1 hs with hs | hs
        · exact absurd hcount
            (ne_of_lt (lt_of_le_of_lt (hmax s hs) hcond))
        · rw [List.mem_singleton.1 hs]
    · rw [if_neg hcond]
      have hxle : l.count x ≤ l.count best := not_lt.1 hcond
      refine ih (done ++ [x]) best ?_ ?_ ?_ ?_
      · rw [hsplit, List.append_assoc]; rfl
      · exact List.mem_append_left [x] hmem
      · intro s hs
        rcases List.mem_append.1 hs with hs | hs
        · exact hmax s hs
        · rw [List.mem_singleton.1 hs]; exact hxle
      · intro s hs hcount
        rcases List.mem_append.1 hs with hs | hs
        · exact htie s hs hcount
        · rw [List.mem_singleton.1 hs] at hcount ⊢
          by_cases hxdone : x ∈ done
          · exact htie x hxdone hcount
          · have hidx : l.indexOf x = done.length := by
              rw [hsplit, List.indexOf_append_of_not_mem hxdone,
                List.indexOf_cons_self, Nat.add_zero]
            have hbest : l.indexOf best < done.length := by
              rw [hsplit, List.indexOf_append_of_mem hmem]
              exact List.indexOf_lt_length.2 hmem
            rw [hidx]
            exact le_of_lt hbest

/-- The most frequent label of a nonempty column is a member of the
column, has a maximal occurrence count, and among the tied labels has
the earliest first appearance (smallest `indexOf`). -/
theorem mostFrequent_spec (l : List String) (h : l ≠ []) :
    mostFrequent l ∈ l ∧
    (∀ s : String, l.count s ≤ l.count (mostFrequent l)) ∧
    (∀ s ∈ l, l.count s = l.count (mostFrequent l) →
      l.indexOf (mostFrequent l) ≤ l.indexOf s) := by
  cases l with
  | nil => exact absurd rfl h
  | cons a rest =>
    rw [mostFrequent]
    obtain ⟨hmem, hmax, htie⟩ :=
      pickMax_invariant (a :: rest) rest [a] a rfl
        (List.mem_singleton_self a)
        (fun s hs => by rw [List.mem_singleton.1 hs])
        (fun s hs _ => by rw [List.mem_singleton.1 hs])
    refine ⟨hmem, ?_, htie⟩
    intro s
    by_cases hs : s ∈ a :: rest
    · exact hmax s hs
    · rw [List.count_eq_zero_of_not_mem hs]
      exact Nat.zero_le _

/-- C2: for a nonempty dataset, the most-frequent top-product and
top-customer labels are members of their column with the highest
occurrence count, ties resolved in favour of the label whose first
appearance in the dataset comes earliest; and the result is a
deterministic function of the column, so computing it twice on the same
dataset yields the same label. -/
theorem most_frequent_labels_spec (data : List WeeklyRecord) (h : data ≠ []) :
    ((analyze_products data).most_frequent_top_product ∈ data.map (·.topProduct) ∧
     (∀ s : String, (data.map (·.topProduct)).count s ≤
        (data.map (·.topProduct)).count (analyze_products data).most_frequent_top_product) ∧
     (∀ s ∈ data.map (·.topProduct),
        (data.map (·.topProduct)).count s =
          (data.map (·.topProduct)).count (analyze_products data).most_frequent_top_product →
        (data.map (·.topProduct)).indexOf
            (analyze_products data).most_frequent_top_product ≤
          (data.map (·.topProduct)).indexOf s)) ∧
    ((analyze_customers data).most_frequent_top_customer ∈ data.map (·.topCustomer) ∧
     (∀ s : String, (data.map (·.topCustomer)).count s ≤
        (data.map (·.topCustomer)).count (analyze_customers data).most_frequent_top_customer) ∧
     (∀ s ∈ data.map (·.topCustomer),
        (data.map (·.topCustomer)).count s =
          (data.map (·.topCustomer)).count (analyze_customers data).most_frequent_top_customer →
        (data.map (·.topCustomer)).indexOf
            (analyze_customers data).most_frequent_top_customer ≤
          (data.map (·.topCustomer)).indexOf s)) ∧
    (∀ data' : List WeeklyRecord,
      data'.map (·.topProduct) = data.map (·.topProduct) →
      (analyze_products data').most_frequent_top_product =
        (analyze_products data).most_frequent_top_product) ∧
    (∀ data' : List WeeklyRecord,
      data'.map (·.topCustomer) = data.map (·.topCustomer) →
      (analyze_customers data').most_frequent_top_customer =
        (analyze_customers data).most_frequent_top_customer) := by
  have hp : data.map (·.topProduct) ≠ [] := by
    intro hc; exact h (List.map_eq_nil_iff.1 hc)
  have hc : data.map (·.topCustomer) ≠ [] := by
    intro hcc; exact h (List.map_eq_nil_iff.1 hcc)
  refine ⟨mostFrequent_spec _ hp, mostFrequent_spec _ hc, ?_, ?_⟩
  · intro data' hEq
    show mostFrequent (data'.map (·.topProduct)) = mostFrequent (data.map (·.topProduct))
    rw [hEq]
  · intro data' hEq
    show mostFrequent (data'.map (·.topCustomer)) = mostFrequent (data.map (·.topCustomer))
    rw [hEq]

/-- Witness for C2 on a concrete three-record dataset with product
column `["A", "A", "B"]` and customer column `["X", "X", "Y"]`. -/
theorem most_frequent_labels_spec_witness :
    (analyze_products invertedHighSalesData).most_frequent_top_product ∈
      invertedHighSalesData.map (·.topProduct) ∧
    (invertedHighSalesData.map (·.topCustomer)).count "Y" ≤
      (invertedHighSalesData.map (·.topCustomer)).count
        (analyze_customers invertedHighSalesData).most_frequent_top_customer :=
  ⟨(most_frequent_labels_spec invertedHighSalesData (by simp [invertedHighSalesData])).1.1,
   (most_frequent_labels_spec invertedHighSalesData
      (by simp [invertedHighSalesData])).2.1.2.1 "Y"⟩

end ReportGen
